import Mathlib

/-!
Verification of the boring-cli renderers and backend helpers.

This file shallowly embeds the two pure renderers of the repository —
the Lark rich-text-to-markdown converter (`src/boring/backends/lark.py`,
`rich_text_to_markdown`) and the Kanban comment-tree formatter
(`src/boring/backends/kanban.py`, `_format_comment_node` and
`_fetch_and_format_comments`) — together with the label-filtering logic of
both backends' `list_tasks` and the epoch-millisecond timestamp handling of
`LarkBackend.get_task_detail`.

Modelling conventions:
- every JSON field read with `dict.get(key, default)` in Python becomes an
  `Option` field whose `none` case stands for a missing key, resolved with
  `Option.getD` at exactly the places the Python code supplies a default;
- Python truthiness tests on retrieved values (`if style.get("bold")`,
  `if link.get("url")`, `elif heading_level:`) become `getD false`,
  a non-empty-string test, and a non-zero test respectively;
- a JSON element object is keyed by which of the recognized keys it carries
  (the `if/elif` chain over `"textRun"`, `"mentionUser"`, ... in the source),
  so it is modelled as a sum type with one constructor per recognized key and
  an `unknown` constructor for elements carrying none of them;
- Python `str.lower()` is modelled on the ASCII range via `Char.toLower`;
- `datetime.fromtimestamp` uses the local timezone, modelled here as an
  explicit UTC-offset-in-seconds parameter.
-/

namespace Boring

/-- Python `s.lower()`, restricted to the ASCII range. -/
def pyLower (s : String) : String := String.mk (s.toList.map Char.toLower)

/-- Python string repetition `s * n` for a nonnegative count. -/
def strRepeat (s : String) (n : Nat) : String :=
  match n with
  | 0 => ""
  | n + 1 => s ++ strRepeat s n

/-- Concatenation of a list of strings with no separator. -/
def concatStrs : List String → String
  | [] => ""
  | s :: ss => s ++ concatStrs ss

/-! ## Lark rich-text data model (`rich_text_to_markdown` input schema) -/

/-- The value of a text run style's `link` key: a dict with an optional
`url` key (`style.get("link", {})` then `link.get("url")`). -/
structure LinkObj where
  url : Option String
deriving Repr, DecidableEq

/-- The value of `element["textRun"].get("style", {})`. -/
structure RunStyle where
  bold : Option Bool
  italic : Option Bool
  strikethrough : Option Bool
  codeInline : Option Bool
  link : Option LinkObj
deriving Repr, DecidableEq

/-- The value of `paragraph_style["list"]`: keys `type` and `indentLevel`. -/
structure ListInfo where
  type : Option String
  indentLevel : Option Nat
deriving Repr, DecidableEq

/-- Paragraph-level style dict: keys `codeBlock`, `quote`, `headingLevel`,
`codeLanguage`, `list` of `paragraph.get("style", {})`. -/
structure ParaStyle where
  codeBlock : Option Bool
  quote : Option Bool
  headingLevel : Option Nat
  codeLanguage : Option String
  list : Option ListInfo
deriving Repr, DecidableEq

mutual
/-- A Lark rich-text document dict: its `content` key holds the paragraph
list (`rich_text.get("content", [])`). -/
inductive RichText where
  | mk (content : Option (List Paragraph)) : RichText

/-- One paragraph dict: keys `style` and `elements`. -/
inductive Paragraph where
  | mk (style : Option ParaStyle) (elements : Option (List Element)) : Paragraph

/-- One element dict, keyed by which recognized key it carries (the
`if/elif` chain of `rich_text_to_markdown`); `unknown` stands for an element
carrying none of the recognized keys, which contributes no fragment. -/
inductive Element where
  | textRun (text : Option String) (style : Option RunStyle) : Element
  | mentionUser (userId : Option String) : Element
  | fileEmbed (fileToken : Option String) (name : Option String) : Element
  | imageEmbed (fileToken : Option String) : Element
  | gallery (imageList : Option (List (Option String))) : Element
  | divider : Element
  | codeBlockE (language : Option String) (text : Option String) : Element
  | callout (content : Option RichText) : Element
  | equation (content : Option String) : Element
  | docsLink (url : Option String) (title : Option String) : Element

  | unknown : Element
end

/-- Lines 35-53 of `lark.py`: render one `textRun` element. When the
paragraph's code-block flag is set the raw text is kept; otherwise bold,
italic, strikethrough and inline-code wraps are applied in that order, each
around the current accumulated text, and finally a link wrap when the style
carries a non-empty `link.url`. -/
def renderTextRun (is_code_block : Bool) (text0 : Option String)
    (style0 : Option RunStyle) : String :=
  let text := text0.getD ""
  let style := style0.getD ⟨none, none, none, none, none⟩
  if is_code_block then text
  else
    let text := if style.bold.getD false then "**" ++ text ++ "**" else text
    let text := if style.italic.getD false then "*" ++ text ++ "*" else text
    let text := if style.strikethrough.getD false then "~~" ++ text ++ "~~" else text
    let text := if style.codeInline.getD false then "`" ++ text ++ "`" else text
    let link := style.link.getD ⟨none⟩
    if link.url.getD "" ≠ "" then "[" ++ text ++ "](" ++ link.url.getD "" ++ ")"
    else text

/-- Lines 68-72 of `lark.py`: a gallery contributes one `![Image](token)`
fragment per entry of its `imageList`. -/
def galleryParts (images : List (Option String)) : List String :=
  images.map (fun img => "![Image](" ++ img.getD "" ++ ")")

/-- Lines 96-116 of `lark.py`: join the element fragments and apply the
paragraph-level wraps — code fence, else quote, else heading — then the
list marker outermost. -/
def mkParaLine (style : Option ParaStyle) (line_parts : List String) : String :=
  let paragraph_style := style.getD ⟨none, none, none, none, none⟩
  let is_code_block := paragraph_style.codeBlock.getD false
  let is_quote := paragraph_style.quote.getD false
  let heading_level := paragraph_style.headingLevel.getD 0
  let line := String.join line_parts
  let line :=
    if is_code_block then
      "```" ++ paragraph_style.codeLanguage.getD "" ++ "\n" ++ line ++ "\n```"
    else if is_quote then "> " ++ line
    else if heading_level ≠ 0 then strRepeat "#" heading_level ++ " " ++ line
    else line
  match paragraph_style.list with
  | some li =>
    let indent := strRepeat "  " (li.indentLevel.getD 0)
    if li.type = some "number" then indent ++ "1. " ++ line
    else indent ++ "- " ++ line
  | none => line

mutual
/-- Lines 14-120 of `lark.py`, `rich_text_to_markdown`: `None` (and a dict
without content) renders to the empty string; otherwise one line per
paragraph of the `content` list, joined with a single newline. -/
def rich_text_to_markdown : Option RichText → String
  | none => ""
  | some (.mk none) => ""
  | some (.mk (some paras)) => String.intercalate "\n" (renderParagraphs paras)

/-- The per-paragraph loop of `rich_text_to_markdown`: one markdown line
appended per paragraph, in order. -/
def renderParagraphs : List Paragraph → List String
  | [] => []
  | p :: ps => renderParagraph p :: renderParagraphs ps

/-- Lines 29-118 of `lark.py`: render one paragraph — walk its elements
collecting fragments, then apply the paragraph-level wraps. -/
def renderParagraph : Paragraph → String
  | .mk style none => mkParaLine style []
  | .mk style (some es) =>
    mkParaLine style
      (renderElements ((style.getD ⟨none, none, none, none, none⟩).codeBlock.getD false) es)

/-- The element loop: the fragments of each element, in input order. -/
def renderElements (is_code_block : Bool) : List Element → List String
  | [] => []
  | e :: es => elementParts is_code_block e ++ renderElements is_code_block es

/-- Lines 34-94 of `lark.py`: the fragments one element appends to
`line_parts`. Every recognized element contributes exactly one fragment
except a gallery (one per image) and an unrecognized element (none). -/
def elementParts (is_code_block : Bool) : Element → List String
  | .textRun text style => [renderTextRun is_code_block text style]
  | .mentionUser userId => ["@" ++ userId.getD ""]
  | .fileEmbed fileToken name => ["[File: " ++ name.getD (fileToken.getD "") ++ "]"]
  | .imageEmbed fileToken => ["![Image](" ++ fileToken.getD "" ++ ")"]
  | .gallery imageList => galleryParts (imageList.getD [])
  | .divider => ["\n---\n"]
  | .codeBlockE language text => ["```" ++ language.getD "" ++ "\n" ++ text.getD "" ++ "\n```"]
  | .callout content => ["> " ++ rich_text_to_markdown content]
  | .equation content => ["$$" ++ content.getD "" ++ "$$"]
  | .docsLink url title =>
    ["[" ++ title.getD (url.getD "") ++ "](" ++ url.getD "" ++ ")"]
  | .unknown => []
end

/-! ## Kanban comment tree (`kanban.py`, `_format_comment_node` and
`_fetch_and_format_comments`) -/

/-- The value of a reply's `createdBy` key (`reply.get("createdBy", {})`),
of which only `name` is read. -/
structure CreatedBy where
  name : Option String
deriving Repr, DecidableEq

/-- One reply dict of a comment's `replies` list: keys `content`,
`createdBy`, `createdAt`, `replies`. -/
inductive CommentNode where
  | mk (content : Option String) (createdBy : Option CreatedBy)
       (createdAt : Option String) (replies : Option (List CommentNode)) : CommentNode

/-- A reply's body text with the default of line 138 of `kanban.py`. -/
def CommentNode.contentOf : CommentNode → String
  | .mk c _ _ _ => c.getD ""

/-- A reply's author name with the defaults of line 139 of `kanban.py`. -/
def CommentNode.authorOf : CommentNode → String
  | .mk _ cb _ _ => (cb.getD ⟨none⟩).name.getD "Unknown"

/-- A reply's raw timestamp with the default of line 140 of `kanban.py`. -/
def CommentNode.createdAtOf : CommentNode → String
  | .mk _ _ ca _ => ca.getD ""

/-- A reply's own replies with the default of line 141 of `kanban.py`. -/
def CommentNode.repliesOf : CommentNode → List CommentNode
  | .mk _ _ _ reps => reps.getD []

/-- Line 133 of `kanban.py`: `created_at.split("T")[0] if "T" in created_at
else created_at` — `split("T")[0]` is the maximal prefix before the first
`T`. -/
def displayTimestamp (created_at : String) : String :=
  if created_at.toList.contains 'T' then
    String.mk (created_at.toList.takeWhile (fun c => c ≠ 'T'))
  else created_at

mutual
/-- Lines 130-145 of `kanban.py`, `_format_comment_node`: one list line
`<indent>- **<author>** [<date>]: <content>` with a trailing newline,
followed directly by each reply rendered at `level + 1`. -/
def format_comment_node (content author created_at : String)
    (replies : List CommentNode) (level : Nat) : String :=
  let indent := strRepeat "  " level
  let timestamp := displayTimestamp created_at
  let markdown := indent ++ "- **" ++ author ++ "** [" ++ timestamp ++ "]: "
    ++ content ++ "\n"
  markdown ++ formatReplies replies level
termination_by sizeOf replies + 1
decreasing_by all_goals (simp_wf; try omega)

/-- The `for reply in replies` loop of `_format_comment_node`: each reply's
fields are read with the defaults of lines 138-141 and the reply is rendered
at `level + 1`, appended in order. -/
def formatReplies : List CommentNode → Nat → String
  | [], _ => ""
  | .mk c cb ca (some l) :: rs, level =>
    format_comment_node (c.getD "") ((cb.getD ⟨none⟩).name.getD "Unknown")
      (ca.getD "") l (level + 1)
    ++ formatReplies rs level
  | .mk c cb ca none :: rs, level =>
    format_comment_node (c.getD "") ((cb.getD ⟨none⟩).name.getD "Unknown")
      (ca.getD "") [] (level + 1)
    ++ formatReplies rs level
termination_by rs _ => sizeOf rs
decreasing_by all_goals (simp_wf; try omega)
end

/-- The value of an activity's `actor` key, of which only `name` is read. -/
structure Actor where
  name : Option String
deriving Repr, DecidableEq

/-- The value of a comment activity's `data` key: `comment` body and
`replies` list. -/
inductive ActivityData where
  | mk (comment : Option String) (replies : Option (List CommentNode)) : ActivityData

/-- One activity record returned by `kanban.cards.activities`: keys `name`,
`data`, `actor`, `createdAt`. -/
inductive Activity where
  | mk (name : Option String) (data : Option ActivityData) (actor : Option Actor)
       (createdAt : Option String) : Activity

/-- Lines 103-122 of `kanban.py`: the markdown part contributed by one
activity — present exactly when the activity's `name` is
`"kanban_cards.comment"`, in which case the comment is rendered as a tree
rooted at level 0. -/
def commentPart : Activity → Option String
  | .mk name data actor createdAt =>
    if name = some "kanban_cards.comment" then
      let comment_data := data.getD (.mk none none)
      let actor := actor.getD ⟨none⟩
      let created_at := createdAt.getD ""
      match comment_data with
      | .mk comment replies =>
        some (format_comment_node (comment.getD "") (actor.name.getD "Unknown")
          created_at (replies.getD []) 0)
    else none

/-- Lines 99-128 of `kanban.py`, the pure tail of
`_fetch_and_format_comments`: collect the markdown parts of the comment
activities; if any, prefix a horizontal rule and a `## Comments` header and
join the parts with a newline, else return the empty string. -/
def formatCommentsMarkdown (activities : List Activity) : String :=
  let markdown_parts := activities.filterMap commentPart
  if markdown_parts ≠ [] then
    "\n\n---\n\n## Comments\n\n" ++ String.intercalate "\n" markdown_parts
  else ""

/-! ## Lark comment timestamps (`lark.py`, `get_task_detail` lines 263-287) -/

/-- Digits of a Python integer literal body, allowing single underscores
between digits as `int()` does; `none` on any other shape. -/
def pyDigits : List Char → Option (List Char)
  | [] => none
  | [c] => if c.isDigit then some [c] else none
  | c :: '_' :: cs =>
    if c.isDigit then
      match pyDigits cs with
      | some ds => some (c :: ds)
      | none => none
    else none
  | c :: cs =>
    if c.isDigit then
      match pyDigits cs with
      | some ds => some (c :: ds)
      | none => none
    else none

/-- Python `int(s)` on a string: optional surrounding whitespace, optional
sign, digits (underscore separators allowed); `none` models `ValueError`. -/
def pyInt? (s : String) : Option Int :=
  let cs := (s.toList.dropWhile Char.isWhitespace).reverse.dropWhile Char.isWhitespace |>.reverse
  let (neg, body) :=
    match cs with
    | '-' :: rest => (true, rest)
    | '+' :: rest => (false, rest)
    | _ => (false, cs)
  match pyDigits body with
  | some ds =>
    let n : Nat := ds.foldl (fun acc c => acc * 10 + (c.toNat - 48)) 0
    some (if neg then -(n : Int) else (n : Int))
  | none => none

/-- Civil date from a count of days since 1970-01-01 (proleptic Gregorian),
as used by `datetime.fromtimestamp`. -/
def civilFromDays (z0 : Int) : Int × Int × Int :=
  let z := z0 + 719468
  let era := z.fdiv 146097
  let doe := z - era * 146097
  let yoe := (doe - doe.fdiv 1460 + doe.fdiv 36524 - doe.fdiv 146096).fdiv 365
  let y := yoe + era * 400
  let doy := doe - (365 * yoe + yoe.fdiv 4 - yoe.fdiv 100)
  let mp := (5 * doy + 2).fdiv 153
  let d := doy - (153 * mp + 2).fdiv 5 + 1
  let m := mp + (if mp < 10 then 3 else -9)
  (y + (if m ≤ 2 then 1 else 0), m, d)

/-- Two-digit zero-padded field, as `strftime` `%m`, `%d`, `%H`, `%M`. -/
def pad2 (n : Int) : String :=
  if n < 10 then "0" ++ toString n else toString n

/-- Lines 274-276 of `lark.py`: `datetime.fromtimestamp(int(s)/1000)`
followed by `strftime('%Y-%m-%d %H:%M')`. `tzOffSecs` is the local UTC
offset `fromtimestamp` applies; `none` models the `ValueError` raised when
the resulting year falls outside `datetime`'s 1..9999 range. Millisecond
inputs are exact at minute granularity, so the float division of the source
is modelled by integer floor division. -/
def formatEpochMs (tzOffSecs : Int) (ms : Int) : Option String :=
  let secs := ms.fdiv 1000 + tzOffSecs
  let days := secs.fdiv 86400
  let sod := secs - days * 86400
  match civilFromDays days with
  | (y, m, d) =>
    if 1 ≤ y ∧ y ≤ 9999 then
      some (toString y ++ "-" ++ pad2 m ++ "-" ++ pad2 d ++ " "
        ++ pad2 (sod.fdiv 3600) ++ ":" ++ pad2 (sod.fdiv 60 % 60))
    else none

/-- The timestamp conversion attempted inside the `try` of lines 273-280:
parse the raw `created_at` as an integer and format it; `none` models any
exception caught by the `except` on line 281. -/
def convertCreatedAt (tzOffSecs : Int) (created_at : String) : Option String :=
  (pyInt? created_at).bind (formatEpochMs tzOffSecs)

/-- Lines 268-287 of `lark.py`: the markdown one comment appends to
`full_markdown` — a `### <formatted date>` header when the timestamp
converts, the `### Comment` placeholder when conversion fails, no header
when `created_at` is empty; the body follows in every case. -/
def larkCommentBlock (tzOffSecs : Int) (content created_at : String) : String :=
  (if created_at ≠ "" then
    match convertCreatedAt tzOffSecs created_at with
    | some fmt => "### " ++ fmt ++ "\n\n"
    | none => "### Comment\n\n"
  else "")
  ++ content ++ "\n\n"

/-! ## Label filtering (`list_tasks` of both backends) -/

/-- The normalized task record of `backends/base.py` (the `comments` list,
unread by `list_tasks`, is omitted). -/
structure TaskItem where
  id : String
  title : String
  description : String
  priority : Option String
  due_date : Option String
  labels : List String
deriving Repr, DecidableEq

/-- Line 196 of `lark.py` / line 185 of `kanban.py`:
`set(lbl.lower() for lbl in labels) if labels else None` — `None` and the
empty list both disable filtering; the set is modelled as the lowercased
list, used only for membership. -/
def labelFilterOf : Option (List String) → Option (List String)
  | some ls => if ls = [] then none else some (ls.map pyLower)
  | none => none

/-- Lines 205-208 of `lark.py` / 210-213 of `kanban.py`: a task survives the
label filter when no filter is active or some of its labels, lowercased, is
in the filter set. -/
def keepByLabels (label_filter : Option (List String)) (t : TaskItem) : Bool :=
  match label_filter with
  | some f => t.labels.any (fun lbl => pyLower lbl ∈ f)
  | none => true

/-- Lines 195-212 of `lark.py`, `LarkBackend.list_tasks`, given the task
details already fetched for the section's items in order: keep exactly the
tasks surviving the label filter. -/
def lark_list_tasks (labels : Option (List String)) (details : List TaskItem) :
    List TaskItem :=
  details.filter (keepByLabels (labelFilterOf labels))

/-- One card of the Kanban board payload: its `listId` key and the result of
`get_task_detail(card["id"])`, where `none` models the exception swallowed
by the `try/except` of lines 204-207. -/
structure Card where
  listId : Option String
  detail : Option TaskItem
deriving Repr, DecidableEq

/-- Lines 198-217 of `kanban.py`, `KanbanBackend.list_tasks`, given the
selected `cards` list: skip a card whose truthy `listId` differs from the
section, skip a card whose detail fetch raised, then apply the label
filter. -/
def kanban_list_tasks (section_id : String) (labels : Option (List String))
    (cards : List Card) : List TaskItem :=
  let label_filter := labelFilterOf labels
  cards.filterMap (fun card =>
    if card.listId.getD "" ≠ "" ∧ card.listId.getD "" ≠ section_id then none
    else
      match card.detail with
      | none => none
      | some t => if keepByLabels label_filter t then some t else none)

/-! ## Description dispatch (`lark.py`, `get_task_detail` lines 226-232) -/

/-- The runtime type cases of `task_data.get("description")`. -/
inductive DescriptionData where
  | dictD (rt : RichText) : DescriptionData
  | strD (s : String) : DescriptionData
  | noneD : DescriptionData

/-- Lines 226-232 of `lark.py`: a dict description is rendered, a string
description passes through unchanged, anything else becomes empty. -/
def descriptionFrom : DescriptionData → String
  | .dictD rt => rich_text_to_markdown (some rt)
  | .strD s => s
  | .noneD => ""

/-! ## General lemmas about the renderers -/

theorem renderParagraphs_eq_map (ps : List Paragraph) :
    renderParagraphs ps = ps.map renderParagraph := by
  induction ps with
  | nil => rfl
  | cons p ps ih => simp [renderParagraphs, ih]

theorem rich_text_to_markdown_some (ps : List Paragraph) :
    rich_text_to_markdown (some (.mk (some ps)))
      = String.intercalate "\n" (ps.map renderParagraph) := by
  rw [rich_text_to_markdown, renderParagraphs_eq_map]

theorem intercalate_singleton (s : String) : String.intercalate "\n" [s] = s := by
  simp [String.intercalate, String.intercalate.go]

theorem renderParagraph_single_element (st : Option ParaStyle) (e : Element) :
    renderParagraph (.mk st (some [e]))
      = mkParaLine st
          (elementParts ((st.getD ⟨none, none, none, none, none⟩).codeBlock.getD false) e) := by
  simp [renderParagraph, renderElements]

theorem mkParaLine_plain (parts : List String) :
    mkParaLine none parts = String.join parts := by
  simp [mkParaLine]

theorem renderParagraph_callout (c : Option RichText) :
    rich_text_to_markdown (some (.mk (some [.mk none (some [.callout c])])))
      = "> " ++ rich_text_to_markdown c := by
  rw [rich_text_to_markdown_some]
  simp [renderParagraph_single_element, elementParts, mkParaLine_plain, String.join,
    intercalate_singleton]

/-! ## Claim theorems -/

/-- C5: the document renderer returns the empty string for a null document,
for a document dict without a `content` key and for an empty paragraph list;
and the description dispatch of `get_task_detail` passes every string
description through unchanged, renders a dict description and turns an
absent description into the empty string. -/
theorem render_document_null_empty_string_cases :
    rich_text_to_markdown none = ""
    ∧ rich_text_to_markdown (some (.mk none)) = ""
    ∧ rich_text_to_markdown (some (.mk (some []))) = ""
    ∧ (∀ s : String, descriptionFrom (.strD s) = s)
    ∧ descriptionFrom .noneD = ""
    ∧ ∀ rt : RichText, descriptionFrom (.dictD rt) = rich_text_to_markdown (some rt) :=
  ⟨rfl, rfl, rfl, fun _ => rfl, rfl, fun _ => rfl⟩

/-- C1 counterexample: a callout whose nested content renders to the two
lines `a` and `b` produces the fragment `> a\nb` — the block-quote marker is
prepended once to the whole recursively rendered content, so the second line
`b` is left unprefixed and the output differs from the all-lines-prefixed
reading `> a\n> b`. -/
theorem callout_multiline_counterexample :
    rich_text_to_markdown (some (.mk (some [.mk none (some [.callout (some (.mk (some
        [.mk none (some [.textRun (some "a") none]),
         .mk none (some [.textRun (some "b") none])])))])])))
      = "> a\nb"
    ∧ "> a\nb" ≠ "> a\n> b" :=
  ⟨rfl, by decide⟩

/-- C1 (amended): a callout renders its nested document content recursively
and prepends a single `> ` marker to the front of the whole rendered
content (so only the first line of multi-line content is prefixed); a
callout with no content renders as `> ` with empty body. -/
theorem callout_quote_marker (content : Option RichText) :
    rich_text_to_markdown (some (.mk (some [.mk none (some [.callout content])])))
      = "> " ++ rich_text_to_markdown content
    ∧ rich_text_to_markdown (some (.mk (some [.mk none (some [.callout none])]))) = "> " := by
  refine ⟨renderParagraph_callout content, ?_⟩
  rw [renderParagraph_callout none]
  rfl

/-- C4 counterexample: a document with exactly one `ParagraphBlock` holding a
divider element renders to `\n---\n`, which contains two newline characters
(three output lines), so a paragraph does not always produce exactly one
output line and element fragments do contribute line breaks of their own. -/
theorem divider_line_break_counterexample :
    rich_text_to_markdown (some (.mk (some [.mk none (some [.divider])]))) = "\n---\n"
    ∧ ("\n---\n").toList.count '\n' = 2 :=
  ⟨rfl, by decide⟩

/-- C4 (amended): the renderer appends exactly one markdown entry per
`ParagraphBlock`, in input order, and joins the entries with a single
newline; but an entry may itself contain newline characters (divider,
element-level code block, callout content), so the output can hold more
lines than there are paragraphs. -/
theorem one_entry_per_paragraph (ps : List Paragraph) :
    rich_text_to_markdown (some (.mk (some ps)))
      = String.intercalate "\n" (ps.map renderParagraph)
    ∧ (renderParagraphs ps).length = ps.length := by
  refine ⟨rich_text_to_markdown_some ps, ?_⟩
  rw [renderParagraphs_eq_map]
  simp

/-- C2: inline styles wrap the accumulated text in the fixed order bold,
italic, strikethrough, inline-code, and a present (non-empty) hyperlink
target wraps the whole styled text as a markdown link outermost; a run that
is both bold and italic therefore renders as `***x***`, and when the
paragraph's code-block flag is set all inline styling is skipped and the raw
text is preserved. -/
theorem inline_style_fixed_order (t u : String) (hu : u ≠ "") (style : RunStyle) :
    renderTextRun false (some t) (some ⟨some true, some true, none, none, none⟩)
      = "***" ++ t ++ "***"
    ∧ renderTextRun false (some t)
        (some ⟨some true, some true, some true, some true, some ⟨some u⟩⟩)
      = "[" ++ ("`" ++ ("~~" ++ ("*" ++ ("**" ++ t ++ "**") ++ "*") ++ "~~") ++ "`")
          ++ "](" ++ u ++ ")"
    ∧ renderTextRun true (some t) (some style) = t := by
  refine ⟨?_, ?_, rfl⟩
  · have hdata : ("*" ++ ("**" ++ t ++ "**") ++ "*").data = ("***" ++ t ++ "***").data := by
      simp [String.data_append, show ("*" : String).data = ['*'] from rfl,
        show ("**" : String).data = ['*', '*'] from rfl,
        show ("***" : String).data = ['*', '*', '*'] from rfl]
    simpa [renderTextRun] using String.ext hdata
  · simp [renderTextRun, hu]

/-- C3: exactly one paragraph-level wrap applies, by first match in the
order code-block > quote > heading (a heading only when `heading_level` is
non-zero); a list marker — two spaces per indent level, then `1. ` for an
ordered list and `- ` otherwise — is applied after it, as the outermost
wrap; an ordered-list item at indent level 1 with text `step` renders as
`  1. step`. -/
theorem paragraph_wrap_precedence (s lang : String) (q : Bool) (h n : Nat) :
    renderParagraph (.mk (some ⟨some true, some q, some h, some lang, none⟩)
        (some [.textRun (some s) none]))
      = "```" ++ lang ++ "\n" ++ s ++ "\n```"
    ∧ renderParagraph (.mk (some ⟨some false, some true, some h, some lang, none⟩)
        (some [.textRun (some s) none]))
      = "> " ++ s
    ∧ renderParagraph (.mk (some ⟨some false, some false, some h, some lang, none⟩)
        (some [.textRun (some s) none]))
      = (if h ≠ 0 then strRepeat "#" h ++ " " ++ s else s)
    ∧ renderParagraph (.mk (some ⟨some true, some q, some h, some lang,
          some ⟨some "number", some n⟩⟩) (some [.textRun (some s) none]))
      = strRepeat "  " n ++ "1. " ++ ("```" ++ lang ++ "\n" ++ s ++ "\n```")
    ∧ renderParagraph (.mk (some ⟨some false, some true, some h, some lang,
          some ⟨some "bullet", some n⟩⟩) (some [.textRun (some s) none]))
      = strRepeat "  " n ++ "- " ++ ("> " ++ s)
    ∧ renderParagraph (.mk (some ⟨none, none, none, none, some ⟨some "number", some 1⟩⟩)
        (some [.textRun (some "step") none]))
      = "  1. step" := by
  refine ⟨?_, ?_, ?_, ?_, ?_, rfl⟩ <;>
    simp [renderParagraph, renderElements, elementParts, renderTextRun, mkParaLine,
      String.join, String.empty_append, String.append_assoc]

/-- C6: the renderer is total on documents with missing keys at any level —
every absent field resolves to its default, so a paragraph with neither
style nor elements renders as the empty line without disturbing the
paragraphs around it, a style-less paragraph gets no wrap, and every element
whose payload fields are all missing degrades to its empty-field fragment
instead of an error. -/
theorem missing_fields_degrade (pre suf : List Paragraph) (icb : Bool)
    (parts : List String) :
    rich_text_to_markdown (some (.mk (some (pre ++ .mk none none :: suf))))
      = String.intercalate "\n" (pre.map renderParagraph ++ "" :: suf.map renderParagraph)
    ∧ renderParagraph (.mk none none) = ""
    ∧ mkParaLine none parts = String.join parts
    ∧ renderTextRun icb none none = ""
    ∧ elementParts icb (.textRun none none) = [""]
    ∧ elementParts icb (.mentionUser none) = ["@"]
    ∧ elementParts icb (.fileEmbed none none) = ["[File: ]"]
    ∧ elementParts icb (.imageEmbed none) = ["![Image]()"]
    ∧ elementParts icb (.gallery none) = []
    ∧ elementParts icb (.codeBlockE none none) = ["```\n\n```"]
    ∧ elementParts icb (.callout none) = ["> "]
    ∧ elementParts icb (.equation none) = ["$$$$"]
    ∧ elementParts icb (.docsLink none none) = ["[]()"] := by
  refine ⟨?_, rfl, mkParaLine_plain parts, ?_, ?_, ?_, ?_, ?_, ?_, ?_, ?_, ?_, ?_⟩
  · rw [rich_text_to_markdown_some]
    simp [List.map_append, show renderParagraph (.mk none none) = "" from rfl]
  all_goals cases icb <;> rfl

theorem formatReplies_eq_concat (rs : List CommentNode) (level : Nat) :
    formatReplies rs level = concatStrs (rs.map (fun r =>
      format_comment_node r.contentOf r.authorOf r.createdAtOf r.repliesOf (level + 1))) := by
  induction rs with
  | nil => simp [formatReplies, concatStrs]
  | cons r rs ih =>
    cases r with
    | mk c cb ca reps =>
      cases reps <;> simp [formatReplies, concatStrs, ih, CommentNode.contentOf,
        CommentNode.authorOf, CommentNode.createdAtOf, CommentNode.repliesOf]

/-- C7: a comment node at nesting level `level` emits the single list line
`<indent>- **<author>** [<date>]: <body>` (with a trailing newline), where
the indent is two spaces per level and the date is the portion of the raw
timestamp before the first `T` when one is present and the raw value
unmodified otherwise; each child reply is rendered recursively at
`level + 1` and appended directly after the parent's line with no
blank-line separation. -/
theorem comment_node_line_and_replies (content author created_at s : String)
    (replies : List CommentNode) (level : Nat) (hs : s.toList.contains 'T' = false) :
    format_comment_node content author created_at replies level
      = strRepeat "  " level ++ "- **" ++ author ++ "** ["
          ++ displayTimestamp created_at ++ "]: " ++ content ++ "\n"
        ++ concatStrs (replies.map (fun r =>
            format_comment_node r.contentOf r.authorOf r.createdAtOf r.repliesOf (level + 1)))
    ∧ displayTimestamp s = s
    ∧ displayTimestamp "2024-01-02T15:04:05" = "2024-01-02" := by
  refine ⟨?_, ?_, rfl⟩
  · rw [format_comment_node, formatReplies_eq_concat]
  · simp only [displayTimestamp, hs]
    simp

/-- C7 witness: a top-level comment by Alice with one reply by Bob renders
as the Alice line immediately followed by the two-space-indented Bob line,
each timestamp truncated at its `T`; a pre-truncated date passes through. -/
theorem comment_node_line_and_replies_witness :
    format_comment_node "fixed it" "Alice" "2024-01-02T15:04:05"
        [.mk (some "thanks") (some ⟨some "Bob"⟩) (some "2024-01-03T09:00") none] 0
      = "- **Alice** [2024-01-02]: fixed it\n  - **Bob** [2024-01-03]: thanks\n"
    ∧ displayTimestamp "2024-01-02" = "2024-01-02" := by
  have h := comment_node_line_and_replies "fixed it" "Alice" "2024-01-02T15:04:05"
    "2024-01-02"
    [.mk (some "thanks") (some ⟨some "Bob"⟩) (some "2024-01-03T09:00") none] 0 (by decide)
  refine ⟨?_, h.2.1⟩
  rw [h.1]
  simp [List.map, CommentNode.contentOf, CommentNode.authorOf, CommentNode.createdAtOf,
    CommentNode.repliesOf, concatStrs, format_comment_node, formatReplies]
  rfl

/-- C2 witness: at concrete inputs, bold+italic renders as `***x***`, all
styles plus a link render with the link outermost in the fixed order, and
the code-block flag preserves the raw text. -/
theorem inline_style_fixed_order_witness :
    renderTextRun false (some "x") (some ⟨some true, some true, none, none, none⟩)
      = "***x***"
    ∧ renderTextRun false (some "x")
        (some ⟨some true, some true, some true, some true, some ⟨some "u"⟩⟩)
      = "[`~~***x***~~`](u)"
    ∧ renderTextRun true (some "x")
        (some ⟨some true, some true, some true, some true, some ⟨some "u"⟩⟩) = "x" := by
  have h := inline_style_fixed_order "x" "u" (by decide)
    ⟨some true, some true, some true, some true, some ⟨some "u"⟩⟩
  exact ⟨h.1, h.2.1, h.2.2⟩

/-- C8 counterexample: two top-level comments render to the parts
`- **A** []: x\n` and `- **B** []: y\n`; the section body joins them with a
newline (leaving a blank line between them, since each part already ends in
a newline), so the output differs from the plain concatenation of the two
parts after the header. -/
theorem comments_join_counterexample :
    formatCommentsMarkdown
        [.mk (some "kanban_cards.comment") (some (.mk (some "x") none))
          (some ⟨some "A"⟩) (some ""),
         .mk (some "kanban_cards.comment") (some (.mk (some "y") none))
          (some ⟨some "B"⟩) (some "")]
      = "\n\n---\n\n## Comments\n\n- **A** []: x\n\n- **B** []: y\n"
    ∧ ("\n\n---\n\n## Comments\n\n- **A** []: x\n\n- **B** []: y\n" : String)
      ≠ "\n\n---\n\n## Comments\n\n"
          ++ concatStrs ["- **A** []: x\n", "- **B** []: y\n"] := by
  constructor
  · simp [formatCommentsMarkdown, commentPart, format_comment_node, formatReplies,
      List.filterMap]
    rfl
  · decide

/-- C8 (amended): the comment-section renderer returns the empty string
when there are no comment activities; otherwise it returns the top-level
parts joined with a single newline (not plainly concatenated), wrapped in a
`## Comments` section header preceded by a horizontal-rule separator. -/
theorem comments_section_shape (acts : List Activity) :
    (acts.filterMap commentPart = [] → formatCommentsMarkdown acts = "")
    ∧ (acts.filterMap commentPart ≠ [] →
        formatCommentsMarkdown acts
          = "\n\n---\n\n## Comments\n\n"
              ++ String.intercalate "\n" (acts.filterMap commentPart)) := by
  constructor <;> intro h <;> simp [formatCommentsMarkdown, h]

/-- C8 witness: the empty activity list renders to the empty string, and a
single comment activity renders to the header followed by its one part. -/
theorem comments_section_shape_witness :
    formatCommentsMarkdown [] = ""
    ∧ formatCommentsMarkdown
        [.mk (some "kanban_cards.comment") (some (.mk (some "x") none))
          (some ⟨some "A"⟩) (some "")]
      = "\n\n---\n\n## Comments\n\n- **A** []: x\n" := by
  constructor
  · exact (comments_section_shape []).1 rfl
  · rw [(comments_section_shape
      [.mk (some "kanban_cards.comment") (some (.mk (some "x") none))
        (some ⟨some "A"⟩) (some "")]).2 (by simp [commentPart, List.filterMap])]
    simp [commentPart, format_comment_node, formatReplies, List.filterMap]
    rfl

/-- C9: for a comment whose raw `created_at` is non-empty, a successful
epoch-millisecond conversion yields a `### <YYYY-MM-DD HH:MM>` header
followed by the body, and a failed conversion yields the `### Comment`
placeholder header with the body still emitted — in both cases without
raising. -/
theorem numeric_timestamp_conversion (tzOffSecs : Int) (content created_at fmt : String)
    (hne : created_at ≠ "") :
    (convertCreatedAt tzOffSecs created_at = none →
      larkCommentBlock tzOffSecs content created_at
        = "### Comment\n\n" ++ content ++ "\n\n")
    ∧ (convertCreatedAt tzOffSecs created_at = some fmt →
      larkCommentBlock tzOffSecs content created_at
        = "### " ++ fmt ++ "\n\n" ++ content ++ "\n\n") := by
  constructor <;> intro h <;> simp [larkCommentBlock, hne, h, String.append_assoc]

/-- C9 witness: the non-numeric timestamp `abc` falls back to the
placeholder header while the body is kept, and the epoch-millisecond string
`1700000000000` converts (at UTC offset 0) to a `2023-11-14 22:13`
header. -/
theorem numeric_timestamp_conversion_witness :
    larkCommentBlock 0 "hi" "abc" = "### Comment\n\nhi\n\n"
    ∧ larkCommentBlock 0 "hi" "1700000000000" = "### 2023-11-14 22:13\n\nhi\n\n" := by
  constructor
  · exact (numeric_timestamp_conversion 0 "hi" "abc" "x" (by decide)).1 rfl
  · exact (numeric_timestamp_conversion 0 "hi" "1700000000000" "2023-11-14 22:13"
      (by decide)).2 rfl

/-- C10: label filtering in both backends' `list_tasks` is case-insensitive
— with a non-empty filter, a task appears in the result only if some of its
labels, lowercased, equals some lowercased filter label; with a `None` or
empty filter no task is excluded on account of its labels (the Lark result
is the fetched details unchanged and the Kanban result is the
section/detail pipeline with the label step dropped). -/
theorem label_filtering_case_insensitive (ls : List String) (details : List TaskItem)
    (section_id : String) (cards : List Card) (t : TaskItem) (hne : ls ≠ []) :
    (t ∈ lark_list_tasks (some ls) details →
      ∃ lbl ∈ t.labels, pyLower lbl ∈ ls.map pyLower)
    ∧ (t ∈ kanban_list_tasks section_id (some ls) cards →
      ∃ lbl ∈ t.labels, pyLower lbl ∈ ls.map pyLower)
    ∧ lark_list_tasks none details = details
    ∧ lark_list_tasks (some []) details = details
    ∧ kanban_list_tasks section_id none cards
      = kanban_list_tasks section_id (some []) cards
    ∧ kanban_list_tasks section_id none cards
      = cards.filterMap (fun card =>
          if card.listId.getD "" ≠ "" ∧ card.listId.getD "" ≠ section_id then none
          else card.detail) := by
  refine ⟨?_, ?_, ?_, ?_, rfl, ?_⟩
  · intro ht
    have hk := (List.mem_filter.mp ht).2
    simp [keepByLabels, labelFilterOf, hne, List.any_eq_true] at hk
    simpa using hk
  · intro ht
    obtain ⟨c, -, hc⟩ := List.mem_filterMap.mp ht
    split at hc
    · exact absurd hc (by simp)
    · split at hc
      · exact absurd hc (by simp)
      · rename_i t' _
        split at hc
        · rename_i hkeep
          obtain rfl := Option.some.inj hc
          simp [keepByLabels, labelFilterOf, hne, List.any_eq_true] at hkeep
          simpa using hkeep
        · exact absurd hc (by simp)
  · simp [lark_list_tasks, labelFilterOf, keepByLabels]
  · simp [lark_list_tasks, labelFilterOf, keepByLabels]
  · simp only [kanban_list_tasks, labelFilterOf]
    congr 1
    funext card
    by_cases hp : card.listId.getD "" ≠ "" ∧ card.listId.getD "" ≠ section_id
    · simp [hp]
    · cases hd : card.detail <;> simp [hp, hd, keepByLabels]

/-- C10 witness: the filter label `bug` matches the task label `Bug`
(case-insensitively), and with no filter the fetched details are returned
unchanged. -/
theorem label_filtering_witness :
    (∃ lbl ∈ (["Bug", "UI"] : List String),
      pyLower lbl ∈ (["bug"] : List String).map pyLower)
    ∧ lark_list_tasks none [⟨"1", "t", "d", none, none, ["Bug"]⟩]
      = [⟨"1", "t", "d", none, none, ["Bug"]⟩] := by
  have h := label_filtering_case_insensitive ["bug"]
    [⟨"1", "t", "d", none, none, ["Bug", "UI"]⟩] "sec" []
    ⟨"1", "t", "d", none, none, ["Bug", "UI"]⟩ (by decide)
  have h2 := label_filtering_case_insensitive ["bug"]
    [⟨"1", "t", "d", none, none, ["Bug"]⟩] "sec" []
    ⟨"1", "t", "d", none, none, ["Bug"]⟩ (by decide)
  exact ⟨h.1 (by decide), h2.2.2.1⟩

end Boring
